import Mathlib

set_option autoImplicit false

/-!
Verification of the document-tracking core of the `vscode-gitlens` repository
(`src/trackers/documentTracker.ts`) together with the `ShowLineBlameCommand`
shim (`src/commands/showLineBlame.ts`).

Strings are embedded as lists of code points (`List Nat`); the JavaScript
`Map` is embedded as an association list whose `set` overwrites the previous
binding for the key, and JavaScript object references are embedded through a
heap (allocation id → tracked-document record) so that aliasing between the
two cache keys of one tracked document is represented faithfully.
-/

/-! ## Association-list model of the JavaScript `Map` -/

def alGet {κ α : Type} [DecidableEq κ] : List (κ × α) → κ → Option α
  | [], _ => none
  | p :: ps, k => if p.1 = k then some p.2 else alGet ps k

def alErase {κ α : Type} [DecidableEq κ] : List (κ × α) → κ → List (κ × α)
  | [], _ => []
  | p :: ps, k => if p.1 = k then alErase ps k else p :: alErase ps k

def alSet {κ α : Type} [DecidableEq κ] (m : List (κ × α)) (k : κ) (v : α) : List (κ × α) :=
  (k, v) :: alErase m k

def alCount {κ α : Type} [DecidableEq κ] (m : List (κ × α)) (k : κ) : Nat :=
  (m.filter (fun p => p.1 = k)).length

theorem alGet_erase_self {κ α : Type} [DecidableEq κ] (m : List (κ × α)) (k : κ) :
    alGet (alErase m k) k = none := by
  induction m with
  | nil => rfl
  | cons p ps ih =>
    by_cases h : p.1 = k <;> simp [alErase, alGet, h, ih]

theorem alGet_erase_ne {κ α : Type} [DecidableEq κ] (m : List (κ × α)) (k k' : κ)
    (h : k' ≠ k) : alGet (alErase m k) k' = alGet m k' := by
  induction m with
  | nil => rfl
  | cons p ps ih =>
    have hkk : ¬k = k' := Ne.symm h
    by_cases hp : p.1 = k
    · have hpk : ¬p.1 = k' := fun hk => h (hk ▸ hp)
      simp [alErase, alGet, hp, hpk, ih, hkk, h]
    · by_cases hp' : p.1 = k' <;> simp [alErase, alGet, hp, hp', ih, hkk, h]

theorem alGet_set_self {κ α : Type} [DecidableEq κ] (m : List (κ × α)) (k : κ) (v : α) :
    alGet (alSet m k v) k = some v := by
  simp [alSet, alGet]

theorem alGet_set_ne {κ α : Type} [DecidableEq κ] (m : List (κ × α)) (k k' : κ) (v : α)
    (h : k' ≠ k) : alGet (alSet m k v) k' = alGet m k' := by
  have hk : ¬k = k' := Ne.symm h
  simp [alSet, alGet, hk, alGet_erase_ne m k k' h]

theorem alCount_erase_self {κ α : Type} [DecidableEq κ] (m : List (κ × α)) (k : κ) :
    alCount (alErase m k) k = 0 := by
  induction m with
  | nil => rfl
  | cons p ps ih =>
    by_cases h : p.1 = k <;> simp [alErase, alCount, h] <;>
      simpa [alCount] using ih

theorem alCount_set_self {κ α : Type} [DecidableEq κ] (m : List (κ × α)) (k : κ) (v : α) :
    alCount (alSet m k v) k = 1 := by
  have h := alCount_erase_self m k
  simp only [alCount] at h
  simp [alSet, alCount, h]

/-! ## Code-point model of strings and the State Key -/

/-- A file-system path, as the list of its character code points. -/
abbrev PathString := List Nat

/-- Replace a backslash (code 92) by a forward slash (code 47). -/
def normSepCode (n : Nat) : Nat := if n = 92 then 47 else n

/-- ASCII lower-casing of one code point, the model of JavaScript
`toLowerCase` on path characters. -/
def lowerCode (n : Nat) : Nat := if 65 ≤ n ∧ n ≤ 90 then n + 32 else n

/-- Modelled from the spec: `Strings.normalizePath` lives in the `system`
module, which is not under `src/`; the spec describes it as path-separator
normalization of the supplied path. -/
def normalizePath (p : PathString) : PathString := p.map normSepCode

/-- JavaScript `String.prototype.toLowerCase`, on code points. -/
def toLowerCase (p : PathString) : PathString := p.map lowerCode

/-- Canonical cache key: a path-separator-normalized, lower-cased path. -/
abbrev StateKey := List Nat

inductive Scheme
  | file
  | git
  | gitlens
  | other
deriving DecidableEq

structure Uri where
  scheme : Scheme
  fsPath : PathString
deriving DecidableEq

/-- A live text-buffer handle.  `id` is the object identity of the handle,
`isDirty` the buffer's dirty flag at the moment an event is delivered. -/
structure TextDocument where
  id : Nat
  uri : Uri
  isDirty : Bool
deriving DecidableEq

/-- The argument of `DocumentTracker.toStateKey`: a file name or a URI. -/
inductive FileNameOrUri
  | fileName (p : PathString)
  | uri (u : Uri)
deriving DecidableEq

/-- `DocumentTracker.toStateKey`: normalize the path (from the string, or the
URI's `fsPath`) and lower-case it. -/
def toStateKey : FileNameOrUri → StateKey
  | FileNameOrUri.fileName p => toLowerCase (normalizePath p)
  | FileNameOrUri.uri u => toLowerCase (normalizePath u.fsPath)

/-- Two code points that differ only in ASCII letter casing or are both path
separators (slash / backslash). -/
def sameChar (m n : Nat) : Bool :=
  (lowerCode m == lowerCode n) || ((m == 47 || m == 92) && (n == 47 || n == 92))

/-- Pointwise `sameChar` over two paths of equal length. -/
def sameFileChars : PathString → PathString → Bool
  | [], [] => true
  | m :: ms, n :: ns => sameChar m n && sameFileChars ms ns
  | _, _ => false

/-- The underlying path of a `FileNameOrUri`. -/
def identityPath : FileNameOrUri → PathString
  | FileNameOrUri.fileName p => p
  | FileNameOrUri.uri u => u.fsPath

/-! ## The Tracked Document entity -/

inductive ResetReason
  | config
  | document
  | save
deriving DecidableEq

/-- Modelled from the spec: the `TrackedDocument` entity is declared in
`src/trackers/trackedDocument.ts`, which is not under `src/`.  Per the spec it
holds a reference to the underlying buffer, a `dirty` flag, an `isDirtyIdle`
flag, a lazily-computed cached state bundle keyed by a reset reason, and a
one-shot force-next-dirty-change flag. -/
structure TrackedDocument where
  docId : Nat
  key : StateKey
  dirty : Bool
  isDirtyIdle : Bool
  forceDirtyStateChangeOnNextDocumentChange : Bool
  cacheValid : Bool
  lastResetReason : Option ResetReason
  forceBlameChange : Bool
  disposed : Bool
deriving DecidableEq

/-- The `TrackedDocument` constructor call `new TrackedDocument(document, key,
dirty, ...)`; the third argument is the initial dirty flag (the call site in
`addCore` passes `false`, commented "Always start out false").  The other
fields start in their cleared state (modelled from the spec). -/
def newTrackedDocument (document : TextDocument) (key : StateKey) (dirty : Bool) :
    TrackedDocument :=
  { docId := document.id
    key := key
    dirty := dirty
    isDirtyIdle := false
    forceDirtyStateChangeOnNextDocumentChange := false
    cacheValid := false
    lastResetReason := none
    forceBlameChange := false
    disposed := false }

/-- Modelled from the spec: `TrackedDocument.reset(reason)` invalidates the
cached state bundle, records the reason, and clears `isDirtyIdle` when the
reason is `document`; it does not touch the `dirty` flag or the force flag. -/
def TrackedDocument.reset (reason : ResetReason) (doc : TrackedDocument) : TrackedDocument :=
  { doc with
    cacheValid := false
    lastResetReason := some reason
    isDirtyIdle := if reason = ResetReason.document then false else doc.isDirtyIdle }

/-- Modelled from the spec: `doc.update({ forceBlameChange: true })` forces a
cache reset carrying a force-blame-recompute flag. -/
def TrackedDocument.update (doc : TrackedDocument) (forceBlameChange : Bool) : TrackedDocument :=
  { doc with cacheValid := false, forceBlameChange := forceBlameChange }

/-- `doc.dispose()`. -/
def TrackedDocument.markDisposed (doc : TrackedDocument) : TrackedDocument :=
  { doc with disposed := true }

/-! ## Debounced deferred calls -/

/-- A debounced callback: calling it schedules (or reschedules) one pending
trailing invocation `delay` after the call; `cancel` discards the pending
invocation. -/
structure Debounce where
  delay : Nat
  pending : Option Nat
deriving DecidableEq

def Debounce.call (db : Debounce) (now : Nat) : Debounce :=
  { db with pending := some (now + db.delay) }

def Debounce.cancel (db : Debounce) : Debounce :=
  { db with pending := none }

/-- The trailing edge fires at exactly the pending deadline. -/
def Debounce.fires (db : Debounce) (t : Nat) : Bool :=
  db.pending == some t

/-! ## The Document Tracker state -/

/-- A key of `_documentMap`: either a live `TextDocument` handle (by object
identity) or a canonical state key. -/
inductive MapKey
  | handle (id : Nat)
  | state (k : StateKey)
deriving DecidableEq

structure TextEditor where
  document : TextDocument
deriving DecidableEq

/-- The ambient editor environment: `window.activeTextEditor`. -/
structure Env where
  activeTextEditor : Option TextEditor
deriving DecidableEq

/-- `isActiveDocument(document)` — modelled from the spec: the document is
presently the active editor's document. -/
def isActiveDocument (env : Env) (d : TextDocument) : Bool :=
  match env.activeTextEditor with
  | some editor => editor.document.id == d.id
  | none => false

/-- The mutable fields of a `DocumentTracker` instance.  `heap` gives each
allocated `TrackedDocument` (by allocation id, `nextId` being the next fresh
id) and `documentMap` is `_documentMap`, mapping keys to allocation ids. -/
structure TrackerState where
  heap : List (Nat × TrackedDocument)
  nextId : Nat
  documentMap : List (MapKey × Nat)
  dirtyIdleTriggerDelay : Nat
  dirtyIdleTriggeredDebounced : Option Debounce
  dirtyStateChangedDebounced : Option Debounce
deriving DecidableEq

/-- Observable actions of one handler invocation. -/
inductive TrackerAction
  | idleRescheduled (deadline : Nat)
  | idleCancelled
  | dispatchDirtyStateChanged (editorDocId : Nat) (docId : Nat) (dirty : Bool)
  | scheduledImmediateDirtyEmit (docId : Nat)
  | dirtyStateDebounceCalled (deadline : Nat)
deriving DecidableEq

/-- Whether an action is the dispatch of a dirty-state-changed event (the call
of `fireDocumentDirtyStateChanged` from the change handler). -/
def TrackerAction.isDirtyDispatch : TrackerAction → Bool
  | TrackerAction.dispatchDirtyStateChanged _ _ _ => true
  | _ => false

/-! ## DocumentTracker operations -/

/-- `DocumentTracker.addCore(document)`: compute the canonical key, construct
a fresh `TrackedDocument` (initial dirty flag `false`) and insert it into
`_documentMap` under the live handle and under the canonical key.  Returns the
allocation id of the new document together with the new state. -/
def addCore (document : TextDocument) (s : TrackerState) : Nat × TrackerState :=
  let key := toStateKey (FileNameOrUri.uri document.uri)
  let doc := newTrackedDocument document key false
  let id := s.nextId
  (id,
    { s with
      heap := alSet s.heap id doc
      nextId := id + 1
      documentMap := alSet (alSet s.documentMap (MapKey.handle document.id) id)
        (MapKey.state key) id })

/-- `DocumentTracker.onTextDocumentClosed(document)`: if tracked, dispose the
entry and delete it under both the live-handle key and its canonical key. -/
def onTextDocumentClosed (d : TextDocument) (s : TrackerState) : TrackerState :=
  match alGet s.documentMap (MapKey.handle d.id) with
  | none => s
  | some id =>
    match alGet s.heap id with
    | none => s
    | some doc =>
      { s with
        heap := alSet s.heap id (TrackedDocument.markDisposed doc)
        documentMap :=
          alErase (alErase s.documentMap (MapKey.handle d.id)) (MapKey.state doc.key) }

/-- `DocumentTracker.onTextDocumentSaved(document)`: if tracked, update the
entry with a forced-blame-change flag and stop; otherwise create a tracked
document only when the saved document is the active editor's document. -/
def onTextDocumentSaved (env : Env) (d : TextDocument) (s : TrackerState) : TrackerState :=
  match alGet s.documentMap (MapKey.handle d.id) with
  | some id =>
    match alGet s.heap id with
    | some doc => { s with heap := alSet s.heap id (TrackedDocument.update doc true) }
    | none => s
  | none =>
    if isActiveDocument env d then (addCore d s).2 else s

/-- The argument of `has`/`get`/`add`: a file name, an open document handle,
or a URI. -/
inductive DocumentOrId
  | fileName (p : PathString)
  | document (d : TextDocument)
  | uri (u : Uri)

/-- `DocumentTracker.has(key)`: strings and URIs are first canonicalized by
`toStateKey`; then a synchronous membership test on `_documentMap`. -/
def trackerHas (s : TrackerState) (k : DocumentOrId) : Bool :=
  match k with
  | DocumentOrId.document d => (alGet s.documentMap (MapKey.handle d.id)).isSome
  | DocumentOrId.fileName p =>
    (alGet s.documentMap (MapKey.state (toStateKey (FileNameOrUri.fileName p)))).isSome
  | DocumentOrId.uri u =>
    (alGet s.documentMap (MapKey.state (toStateKey (FileNameOrUri.uri u)))).isSome

/-- `DocumentTracker.clear()`: dispose every entry reachable from the map and
empty the map. -/
def trackerClear (s : TrackerState) : TrackerState :=
  { s with
    heap := s.heap.map (fun p =>
      (p.1, if s.documentMap.any (fun q => q.2 == p.1)
            then TrackedDocument.markDisposed p.2 else p.2))
    documentMap := [] }

/-- `DocumentTracker.dispose()`: unsubscribe the event registrations (outside
this state) and `clear()`.  It does not touch the idle-trigger delay or the
debounced callbacks. -/
def trackerDispose (s : TrackerState) : TrackerState :=
  trackerClear s

/-- The configuration-change notification, with the outcome of the
`configuration.initializing`/`configuration.changed` queries for the three
sections the tracker consults, and the configured idle delay. -/
structure ConfigurationChangeEvent where
  initializing : Bool
  changedBlameIgnoreWhitespace : Bool
  changedAdvancedCachingEnabled : Bool
  changedAdvancedBlameDelayAfterEdit : Bool
  configDelayAfterEdit : Nat
deriving DecidableEq

/-- Reset, with reason `config`, every heap document referenced by the map
(`for (const d of this._documentMap.values()) d.reset('config')`). -/
def resetMappedDocuments (m : List (MapKey × Nat)) (h : List (Nat × TrackedDocument)) :
    List (Nat × TrackedDocument) :=
  h.map (fun p =>
    (p.1, if m.any (fun q => q.2 == p.1)
          then TrackedDocument.reset ResetReason.config p.2 else p.2))

/-- `DocumentTracker.onConfigurationChanged(e)`. -/
def onConfigurationChanged (e : ConfigurationChangeEvent) (s : TrackerState) : TrackerState :=
  let s1 :=
    if !e.initializing && (e.changedBlameIgnoreWhitespace || e.changedAdvancedCachingEnabled)
    then { s with heap := resetMappedDocuments s.documentMap s.heap }
    else s
  if e.initializing || e.changedAdvancedBlameDelayAfterEdit
  then { s1 with
    dirtyIdleTriggerDelay := e.configDelayAfterEdit
    dirtyIdleTriggeredDebounced := none }
  else s1

/-- `DocumentTracker.fireDocumentDirtyStateChanged(e)`, synchronous part.  On
a dirty event: schedule the near-immediate emission on the next tick, and, if
the configured idle delay is positive, lazily create the idle-trigger debounce
and (re)invoke it.  On a clean event: lazily create the 250ms-debounced clean
emitter and invoke it. -/
def fireDocumentDirtyStateChanged (id : Nat) (dirty : Bool) (now : Nat)
    (s : TrackerState) : TrackerState × List TrackerAction :=
  if dirty then
    let base := [TrackerAction.scheduledImmediateDirtyEmit id]
    if 0 < s.dirtyIdleTriggerDelay then
      let db :=
        match s.dirtyIdleTriggeredDebounced with
        | some db => db
        | none => { delay := s.dirtyIdleTriggerDelay, pending := none }
      ({ s with dirtyIdleTriggeredDebounced := some (Debounce.call db now) },
        base ++ [TrackerAction.idleRescheduled (now + db.delay)])
    else (s, base)
  else
    let db :=
      match s.dirtyStateChangedDebounced with
      | some db => db
      | none => { delay := 250, pending := none }
    ({ s with dirtyStateChangedDebounced := some (Debounce.call db now) },
      [TrackerAction.dirtyStateDebounceCalled (now + db.delay)])

/-- The body of `onTextDocumentChanged` after the tracked document has been
looked up (or created): reset the cache with reason `document`; if an
idle-trigger debounce exists, reschedule it when the buffer is dirty and
cancel it when clean; then apply the dirty-unchanged guard, update the stored
flags, and dispatch a dirty-state-changed event only for the active editor's
document. -/
def processChange (env : Env) (now : Nat) (d : TextDocument) (id : Nat)
    (doc : TrackedDocument) (s : TrackerState) : TrackerState × List TrackerAction :=
  let doc1 := TrackedDocument.reset ResetReason.document doc
  let dirty := d.isDirty
  let idleStep : Option Debounce × List TrackerAction :=
    match s.dirtyIdleTriggeredDebounced with
    | none => (none, [])
    | some db =>
      if dirty then (some (Debounce.call db now), [TrackerAction.idleRescheduled (now + db.delay)])
      else (some (Debounce.cancel db), [TrackerAction.idleCancelled])
  let s1 : TrackerState :=
    { s with heap := alSet s.heap id doc1, dirtyIdleTriggeredDebounced := idleStep.1 }
  if !doc1.forceDirtyStateChangeOnNextDocumentChange && (doc1.dirty == dirty) then
    (s1, idleStep.2)
  else
    let doc2 := { doc1 with forceDirtyStateChangeOnNextDocumentChange := false, dirty := dirty }
    let s2 := { s1 with heap := alSet s1.heap id doc2 }
    match env.activeTextEditor with
    | none => (s2, idleStep.2)
    | some editor =>
      if editor.document.id = d.id then
        let fire := fireDocumentDirtyStateChanged id dirty now s2
        (fire.1,
          idleStep.2 ++ TrackerAction.dispatchDirtyStateChanged editor.document.id id dirty
            :: fire.2)
      else (s2, idleStep.2)

/-- `DocumentTracker.onTextDocumentChanged(e)`: ignore non-file schemes, look
up or create the tracked document, and continue with `processChange`. -/
def onTextDocumentChanged (env : Env) (now : Nat) (d : TextDocument) (s : TrackerState) :
    TrackerState × List TrackerAction :=
  if d.uri.scheme ≠ Scheme.file then (s, [])
  else
    match alGet s.documentMap (MapKey.handle d.id) with
    | some id =>
      match alGet s.heap id with
      | some doc => processChange env now d id doc s
      | none => (s, [])
    | none =>
      let added := addCore d s
      processChange env now d added.1
        (newTrackedDocument d (toStateKey (FileNameOrUri.uri d.uri)) false) added.2

/-! ## ShowLineBlameCommand -/

/-- Observable actions of `ShowLineBlameCommand.execute`. -/
inductive CmdAction
  | loggedError
  | showedErrorMessage
deriving DecidableEq

/-- The value returned by `execute`: `none` models returning `undefined`. -/
inductive ExecOutcome (α : Type)
  | annotations (a : α)
  | errorMessageShown
deriving DecidableEq

/-- `ShowLineBlameCommand.execute(editor, edit, uri, args)`.  `L` is the
annotation type, `ε` the exception type and `α` the result type of
`Container.lineAnnotations.showAnnotations`; `configAnnotationType` is the
configured default annotation type read when `args.type` is absent. -/
def resolveAnnotationType {L : Type} (argsType : Option L) (configAnnotationType : L) : L :=
  match argsType with
  | some t => t
  | none => configAnnotationType

def showLineBlameExecute {L ε α : Type} (editor : Option TextEditor)
    (argsType : Option L) (configAnnotationType : L)
    (showAnnotations : TextEditor → L → Except ε α) :
    Except ε (Option (ExecOutcome α)) × List CmdAction :=
  match editor with
  | none => (Except.ok none, [])
  | some ed =>
    let t := resolveAnnotationType argsType configAnnotationType
    match showAnnotations ed t with
    | Except.ok a => (Except.ok (some (ExecOutcome.annotations a)), [])
    | Except.error _ =>
      (Except.ok (some ExecOutcome.errorMessageShown),
        [CmdAction.loggedError, CmdAction.showedErrorMessage])

/-! ## Concrete sample values -/

def sampleUri : Uri := { scheme := Scheme.file, fsPath := [67, 92, 65] }

def sampleDocument : TextDocument := { id := 0, uri := sampleUri, isDirty := false }

def sampleDirtyDocument : TextDocument := { id := 0, uri := sampleUri, isDirty := true }

def emptyTrackerState : TrackerState :=
  { heap := []
    nextId := 0
    documentMap := []
    dirtyIdleTriggerDelay := 0
    dirtyIdleTriggeredDebounced := none
    dirtyStateChangedDebounced := none }

def sampleIdleState : TrackerState :=
  { emptyTrackerState with
    dirtyIdleTriggerDelay := 1000
    dirtyIdleTriggeredDebounced := some { delay := 1000, pending := some 5000 } }

def sampleConfigDelayEvent : ConfigurationChangeEvent :=
  { initializing := false
    changedBlameIgnoreWhitespace := false
    changedAdvancedCachingEnabled := false
    changedAdvancedBlameDelayAfterEdit := true
    configDelayAfterEdit := 2000 }

def sampleConfigOtherEvent : ConfigurationChangeEvent :=
  { initializing := false
    changedBlameIgnoreWhitespace := false
    changedAdvancedCachingEnabled := false
    changedAdvancedBlameDelayAfterEdit := false
    configDelayAfterEdit := 2000 }

def sampleConfigWsEvent : ConfigurationChangeEvent :=
  { initializing := false
    changedBlameIgnoreWhitespace := true
    changedAdvancedCachingEnabled := false
    changedAdvancedBlameDelayAfterEdit := false
    configDelayAfterEdit := 0 }

def sampleTrackedIdleState : TrackerState :=
  { (addCore sampleDocument emptyTrackerState).2 with
    dirtyIdleTriggerDelay := 1000
    dirtyIdleTriggeredDebounced := some { delay := 1000, pending := none } }

/-! ## Supporting lemmas -/

theorem alCount_erase_ne {κ α : Type} [DecidableEq κ] (m : List (κ × α)) (k k' : κ)
    (h : k' ≠ k) : alCount (alErase m k) k' = alCount m k' := by
  induction m with
  | nil => rfl
  | cons p ps ih =>
    have hkk : ¬k = k' := Ne.symm h
    by_cases hp : p.1 = k
    · have hpk : ¬p.1 = k' := fun hk => h (hk ▸ hp)
      simp [alErase, alCount, hp, hpk, hkk, h] at ih ⊢
      exact ih
    · by_cases hp' : p.1 = k' <;>
        simp [alErase, alCount, hp, hp', hkk, h] at ih ⊢ <;> exact ih

theorem alCount_set_ne {κ α : Type} [DecidableEq κ] (m : List (κ × α)) (k k' : κ) (v : α)
    (h : k' ≠ k) : alCount (alSet m k v) k' = alCount m k' := by
  have hkk : ¬k = k' := Ne.symm h
  have he := alCount_erase_ne m k k' h
  simp only [alCount] at he ⊢
  simp [alSet, hkk, he]

theorem mapKey_handle_ne_state (a : Nat) (b : StateKey) :
    MapKey.handle a ≠ MapKey.state b :=
  fun h => MapKey.noConfusion h

theorem mapKey_state_ne_handle (b : StateKey) (a : Nat) :
    MapKey.state b ≠ MapKey.handle a :=
  fun h => MapKey.noConfusion h

theorem mapKey_handle_ne (a b : Nat) (h : a ≠ b) :
    MapKey.handle a ≠ MapKey.handle b :=
  fun hh => h (by injection hh)

theorem mapKey_state_ne (a b : StateKey) (h : a ≠ b) :
    MapKey.state a ≠ MapKey.state b :=
  fun hh => h (by injection hh)

theorem sameChar_canon (m n : Nat) (h : sameChar m n = true) :
    lowerCode (normSepCode m) = lowerCode (normSepCode n) := by
  simp only [sameChar, Bool.or_eq_true, Bool.and_eq_true, beq_iff_eq] at h
  rcases h with h | ⟨hm, hn⟩
  · by_cases hm : m = 92
    · subst hm
      have hn : n = 92 := by
        simp only [lowerCode] at h
        split_ifs at h <;> omega
      subst hn; rfl
    · by_cases hn : n = 92
      · subst hn
        have hm2 : m = 92 := by
          simp only [lowerCode] at h
          split_ifs at h <;> omega
        exact absurd hm2 hm
      · simp [normSepCode, hm, hn, h]
  · rcases hm with rfl | rfl <;> rcases hn with rfl | rfl <;> rfl

theorem sameFileChars_map (a b : PathString) (h : sameFileChars a b = true) :
    a.map (fun n => lowerCode (normSepCode n)) = b.map (fun n => lowerCode (normSepCode n)) := by
  induction a generalizing b with
  | nil =>
    cases b with
    | nil => rfl
    | cons n ns => simp [sameFileChars] at h
  | cons m ms ih =>
    cases b with
    | nil => simp [sameFileChars] at h
    | cons n ns =>
      simp only [sameFileChars, Bool.and_eq_true] at h
      simp [sameChar_canon m n h.1, ih ns h.2]

theorem toStateKey_eq_map (x : FileNameOrUri) :
    toStateKey x = (identityPath x).map (fun n => lowerCode (normSepCode n)) := by
  cases x <;>
    simp [toStateKey, identityPath, toLowerCase, normalizePath, List.map_map, Function.comp]

/-! ## Claims -/

/-- C5: `toStateKey` is a pure function producing the path-separator-
normalized, lower-cased canonical form, so any two identities (path strings
or URIs) whose paths differ only in ASCII character casing or in
slash-versus-backslash separators map to the same state key. -/
theorem toStateKey_canonical (a b : FileNameOrUri)
    (h : sameFileChars (identityPath a) (identityPath b) = true) :
    toStateKey a = toStateKey b := by
  rw [toStateKey_eq_map, toStateKey_eq_map]
  exact sameFileChars_map _ _ h

theorem toStateKey_canonical_witness :
    sameFileChars (identityPath (FileNameOrUri.fileName [67, 92, 65]))
        (identityPath (FileNameOrUri.uri { scheme := Scheme.file, fsPath := [99, 47, 97] }))
      = true
    ∧ toStateKey (FileNameOrUri.fileName [67, 92, 65])
      = toStateKey (FileNameOrUri.uri { scheme := Scheme.file, fsPath := [99, 47, 97] }) :=
  ⟨by decide, toStateKey_canonical _ _ (by decide)⟩

/-- C1 counterexample: a second `add` for the same identity does not observe
the first caller's entry — `addCore` runs again and allocates a fresh
`TrackedDocument`, and the cache afterwards holds the second allocation, not
the first. -/
theorem add_second_call_creates_fresh :
    (addCore sampleDocument (addCore sampleDocument emptyTrackerState).2).1
      ≠ (addCore sampleDocument emptyTrackerState).1
    ∧ alGet (addCore sampleDocument
          (addCore sampleDocument emptyTrackerState).2).2.documentMap
        (MapKey.handle sampleDocument.id)
      ≠ some (addCore sampleDocument emptyTrackerState).1 := by
  decide

/-- C1 amended: every `add` call runs `addCore`, which always allocates a
fresh Tracked Document and overwrites both cache keys with it; after any
sequence of `add` calls exactly one cache entry exists under the handle key
and one under the canonical key (the most recent allocation), but a second
caller obtains a freshly created Tracked Document, not the first caller's. -/
theorem addCore_always_fresh_single_entry (d : TextDocument) (s : TrackerState) :
    (addCore d s).1 = s.nextId
    ∧ (addCore d s).2.nextId = s.nextId + 1
    ∧ alGet (addCore d s).2.heap s.nextId
      = some (newTrackedDocument d (toStateKey (FileNameOrUri.uri d.uri)) false)
    ∧ alGet (addCore d s).2.documentMap (MapKey.handle d.id) = some s.nextId
    ∧ alGet (addCore d s).2.documentMap
        (MapKey.state (toStateKey (FileNameOrUri.uri d.uri))) = some s.nextId
    ∧ alCount (addCore d s).2.documentMap (MapKey.handle d.id) = 1
    ∧ alCount (addCore d s).2.documentMap
        (MapKey.state (toStateKey (FileNameOrUri.uri d.uri))) = 1 := by
  refine ⟨rfl, rfl, alGet_set_self _ _ _, ?_, ?_, ?_, ?_⟩
  · rw [show (addCore d s).2.documentMap
        = alSet (alSet s.documentMap (MapKey.handle d.id) s.nextId)
            (MapKey.state (toStateKey (FileNameOrUri.uri d.uri))) s.nextId from rfl]
    rw [alGet_set_ne _ _ _ _ (mapKey_handle_ne_state _ _)]
    exact alGet_set_self _ _ _
  · exact alGet_set_self _ _ _
  · rw [show (addCore d s).2.documentMap
        = alSet (alSet s.documentMap (MapKey.handle d.id) s.nextId)
            (MapKey.state (toStateKey (FileNameOrUri.uri d.uri))) s.nextId from rfl]
    rw [alCount_set_ne _ _ _ _ (mapKey_handle_ne_state _ _)]
    exact alCount_set_self _ _ _
  · exact alCount_set_self _ _ _

/-- C2 counterexample: after `addCore` runs twice for the same identity (a
repeated `add`), the first Tracked Document is still live (never disposed, no
close event occurred) yet is no longer reachable under either its handle key
or its canonical key — falsifying "reachable under exactly two keys from
insertion until the text-document-closed handler removes it". -/
theorem readd_orphans_live_document :
    ((alGet (addCore sampleDocument
          (addCore sampleDocument emptyTrackerState).2).2.heap
        (addCore sampleDocument emptyTrackerState).1).map TrackedDocument.disposed
      = some false)
    ∧ alGet (addCore sampleDocument
          (addCore sampleDocument emptyTrackerState).2).2.documentMap
        (MapKey.handle sampleDocument.id)
      ≠ some (addCore sampleDocument emptyTrackerState).1
    ∧ alGet (addCore sampleDocument
          (addCore sampleDocument emptyTrackerState).2).2.documentMap
        (MapKey.state (toStateKey (FileNameOrUri.uri sampleDocument.uri)))
      ≠ some (addCore sampleDocument emptyTrackerState).1 := by
  decide

/-- C2 amended: `addCore` inserts every new Tracked Document under both its
live handle key and its canonical state key; both entries survive a close of
a different document and an `addCore` for a different identity, and the
text-document-closed handler removes both entries together, so afterwards
`has` returns false for the handle and for every path/URI form of the
identity.  (A repeated `addCore` for the same identity, however, overwrites
the entries with a fresh document — see the counterexample.) -/
theorem dualKey_establish_preserve_remove
    (d : TextDocument) (s : TrackerState) (id : Nat) (doc : TrackedDocument)
    (hmap : alGet s.documentMap (MapKey.handle d.id) = some id)
    (hkey : alGet s.documentMap (MapKey.state doc.key) = some id)
    (hheap : alGet s.heap id = some doc) :
    (alGet (onTextDocumentClosed d s).documentMap (MapKey.handle d.id) = none
      ∧ alGet (onTextDocumentClosed d s).documentMap (MapKey.state doc.key) = none
      ∧ trackerHas (onTextDocumentClosed d s) (DocumentOrId.document d) = false
      ∧ (∀ p, toStateKey (FileNameOrUri.fileName p) = doc.key →
          trackerHas (onTextDocumentClosed d s) (DocumentOrId.fileName p) = false)
      ∧ (∀ u, toStateKey (FileNameOrUri.uri u) = doc.key →
          trackerHas (onTextDocumentClosed d s) (DocumentOrId.uri u) = false))
    ∧ (∀ d2, d2.id ≠ d.id →
        (∀ id2 doc2, alGet s.documentMap (MapKey.handle d2.id) = some id2 →
          alGet s.heap id2 = some doc2 → doc2.key ≠ doc.key) →
        alGet (onTextDocumentClosed d2 s).documentMap (MapKey.handle d.id) = some id
        ∧ alGet (onTextDocumentClosed d2 s).documentMap (MapKey.state doc.key) = some id)
    ∧ (∀ d3, d3.id ≠ d.id → toStateKey (FileNameOrUri.uri d3.uri) ≠ doc.key →
        alGet (addCore d3 s).2.documentMap (MapKey.handle d.id) = some id
        ∧ alGet (addCore d3 s).2.documentMap (MapKey.state doc.key) = some id)
    ∧ (∀ d4 s4,
        alGet (addCore d4 s4).2.documentMap (MapKey.handle d4.id) = some (addCore d4 s4).1
        ∧ alGet (addCore d4 s4).2.documentMap
            (MapKey.state (toStateKey (FileNameOrUri.uri d4.uri))) = some (addCore d4 s4).1) := by
  have hclosed : onTextDocumentClosed d s
      = { s with
          heap := alSet s.heap id (TrackedDocument.markDisposed doc)
          documentMap :=
            alErase (alErase s.documentMap (MapKey.handle d.id)) (MapKey.state doc.key) } := by
    simp [onTextDocumentClosed, hmap, hheap]
  refine ⟨⟨?_, ?_, ?_, ?_, ?_⟩, ?_, ?_, ?_⟩
  · rw [hclosed]
    show alGet (alErase (alErase s.documentMap (MapKey.handle d.id)) (MapKey.state doc.key))
        (MapKey.handle d.id) = none
    rw [alGet_erase_ne _ _ _ (mapKey_handle_ne_state _ _)]
    exact alGet_erase_self _ _
  · rw [hclosed]
    exact alGet_erase_self _ _
  · rw [hclosed]
    show (alGet (alErase (alErase s.documentMap (MapKey.handle d.id)) (MapKey.state doc.key))
        (MapKey.handle d.id)).isSome = false
    rw [alGet_erase_ne _ _ _ (mapKey_handle_ne_state _ _), alGet_erase_self]
    rfl
  · intro p hp
    rw [hclosed]
    show (alGet (alErase (alErase s.documentMap (MapKey.handle d.id)) (MapKey.state doc.key))
        (MapKey.state (toStateKey (FileNameOrUri.fileName p)))).isSome = false
    rw [hp, alGet_erase_self]
    rfl
  · intro u hu
    rw [hclosed]
    show (alGet (alErase (alErase s.documentMap (MapKey.handle d.id)) (MapKey.state doc.key))
        (MapKey.state (toStateKey (FileNameOrUri.uri u)))).isSome = false
    rw [hu, alGet_erase_self]
    rfl
  · intro d2 hne hkeys
    cases h2 : alGet s.documentMap (MapKey.handle d2.id) with
    | none => simp [onTextDocumentClosed, h2, hmap, hkey]
    | some id2 =>
      cases h2h : alGet s.heap id2 with
      | none => simp [onTextDocumentClosed, h2, h2h, hmap, hkey]
      | some doc2 =>
        have hk2 : doc2.key ≠ doc.key := hkeys id2 doc2 h2 h2h
        simp only [onTextDocumentClosed, h2, h2h]
        constructor
        · rw [alGet_erase_ne _ _ _ (mapKey_handle_ne_state _ _),
            alGet_erase_ne _ _ _ (mapKey_handle_ne _ _ (Ne.symm hne))]
          exact hmap
        · rw [alGet_erase_ne _ _ _ (mapKey_state_ne _ _ (Ne.symm hk2)),
            alGet_erase_ne _ _ _ (mapKey_state_ne_handle _ _)]
          exact hkey
  · intro d3 hne hk3
    constructor
    · show alGet (alSet (alSet s.documentMap (MapKey.handle d3.id) s.nextId)
          (MapKey.state (toStateKey (FileNameOrUri.uri d3.uri))) s.nextId)
          (MapKey.handle d.id) = some id
      rw [alGet_set_ne _ _ _ _ (mapKey_handle_ne_state _ _),
        alGet_set_ne _ _ _ _ (mapKey_handle_ne _ _ (Ne.symm hne))]
      exact hmap
    · show alGet (alSet (alSet s.documentMap (MapKey.handle d3.id) s.nextId)
          (MapKey.state (toStateKey (FileNameOrUri.uri d3.uri))) s.nextId)
          (MapKey.state doc.key) = some id
      rw [alGet_set_ne _ _ _ _ (mapKey_state_ne _ _ (Ne.symm hk3)),
        alGet_set_ne _ _ _ _ (mapKey_state_ne_handle _ _)]
      exact hkey
  · intro d4 s4
    constructor
    · show alGet (alSet (alSet s4.documentMap (MapKey.handle d4.id) s4.nextId)
          (MapKey.state (toStateKey (FileNameOrUri.uri d4.uri))) s4.nextId)
          (MapKey.handle d4.id) = some s4.nextId
      rw [alGet_set_ne _ _ _ _ (mapKey_handle_ne_state _ _)]
      exact alGet_set_self _ _ _
    · exact alGet_set_self _ _ _

theorem dualKey_establish_preserve_remove_witness :
    alGet (onTextDocumentClosed sampleDocument
        (addCore sampleDocument emptyTrackerState).2).documentMap
      (MapKey.handle 0) = none
    ∧ alGet (onTextDocumentClosed sampleDocument
        (addCore sampleDocument emptyTrackerState).2).documentMap
      (MapKey.state (toStateKey (FileNameOrUri.uri sampleUri))) = none
    ∧ trackerHas (onTextDocumentClosed sampleDocument
        (addCore sampleDocument emptyTrackerState).2)
      (DocumentOrId.fileName [99, 47, 97]) = false := by
  have h := dualKey_establish_preserve_remove sampleDocument
    (addCore sampleDocument emptyTrackerState).2 0
    (newTrackedDocument sampleDocument (toStateKey (FileNameOrUri.uri sampleUri)) false)
    (by decide) (by decide) (by decide)
  exact ⟨h.1.1, h.1.2.1, h.1.2.2.2.1 [99, 47, 97] (by decide)⟩

/-- C8 counterexample: `dispose()` only unsubscribes and calls `clear()`; it
does not discard the idle-trigger debounced callback, so after `dispose` on a
state with a live idle debounce the stored callback is still present. -/
theorem dispose_keeps_idle_debounce :
    (trackerDispose sampleIdleState).dirtyIdleTriggeredDebounced ≠ none := by
  decide

/-- C8 amended: the idle-trigger debounced emitter's lifecycle is reset on a
configuration change (including initial load) affecting the idle-delay
setting — the stored delay is updated to the configured value and the
debounced callback is discarded; configuration changes not affecting the
setting leave both untouched, and `dispose` leaves both untouched as well
(it clears the document cache only). -/
theorem idle_lifecycle_on_config_only (e : ConfigurationChangeEvent) (s : TrackerState) :
    ((e.initializing = true ∨ e.changedAdvancedBlameDelayAfterEdit = true) →
      (onConfigurationChanged e s).dirtyIdleTriggerDelay = e.configDelayAfterEdit
      ∧ (onConfigurationChanged e s).dirtyIdleTriggeredDebounced = none)
    ∧ (e.initializing = false → e.changedAdvancedBlameDelayAfterEdit = false →
      (onConfigurationChanged e s).dirtyIdleTriggerDelay = s.dirtyIdleTriggerDelay
      ∧ (onConfigurationChanged e s).dirtyIdleTriggeredDebounced
          = s.dirtyIdleTriggeredDebounced)
    ∧ (trackerDispose s).dirtyIdleTriggeredDebounced = s.dirtyIdleTriggeredDebounced
    ∧ (trackerDispose s).dirtyIdleTriggerDelay = s.dirtyIdleTriggerDelay := by
  refine ⟨?_, ?_, rfl, rfl⟩
  · intro h
    have hc : (e.initializing || e.changedAdvancedBlameDelayAfterEdit) = true := by
      rcases h with h | h <;> simp [h]
    simp [onConfigurationChanged, hc]
  · intro h1 h2
    have hc : (e.initializing || e.changedAdvancedBlameDelayAfterEdit) = false := by
      simp [h1, h2]
    simp only [onConfigurationChanged, hc, Bool.false_eq_true, if_false]
    constructor <;> split <;> rfl

theorem idle_lifecycle_on_config_only_witness :
    (onConfigurationChanged sampleConfigDelayEvent sampleIdleState).dirtyIdleTriggerDelay = 2000
    ∧ (onConfigurationChanged sampleConfigDelayEvent
        sampleIdleState).dirtyIdleTriggeredDebounced = none
    ∧ (onConfigurationChanged sampleConfigOtherEvent
        sampleIdleState).dirtyIdleTriggeredDebounced
      = sampleIdleState.dirtyIdleTriggeredDebounced := by
  have h := idle_lifecycle_on_config_only sampleConfigDelayEvent sampleIdleState
  have h2 := idle_lifecycle_on_config_only sampleConfigOtherEvent sampleIdleState
  exact ⟨(h.1 (Or.inr rfl)).1, (h.1 (Or.inr rfl)).2, (h2.2.1 rfl rfl).2⟩

theorem alGet_resetMapped (m : List (MapKey × Nat)) (h : List (Nat × TrackedDocument))
    (k : Nat) :
    alGet (resetMappedDocuments m h) k
      = (alGet h k).map (fun v =>
          if m.any (fun q => q.2 == k)
          then TrackedDocument.reset ResetReason.config v else v) := by
  induction h with
  | nil => rfl
  | cons p ps ih =>
    by_cases hp : p.1 = k
    · subst hp
      simp [resetMappedDocuments, alGet]
    · simp only [resetMappedDocuments, List.map] at ih ⊢
      simp [alGet, hp, ih]

theorem onTextDocumentChanged_tracked (env : Env) (now : Nat) (d : TextDocument)
    (s : TrackerState) (id : Nat) (doc : TrackedDocument)
    (hscheme : d.uri.scheme = Scheme.file)
    (hmap : alGet s.documentMap (MapKey.handle d.id) = some id)
    (hheap : alGet s.heap id = some doc) :
    onTextDocumentChanged env now d s = processChange env now d id doc s := by
  simp [onTextDocumentChanged, hscheme, hmap, hheap]

theorem fire_heap (id : Nat) (dirty : Bool) (now : Nat) (s : TrackerState) :
    (fireDocumentDirtyStateChanged id dirty now s).1.heap = s.heap := by
  cases dirty
  · cases hds : s.dirtyStateChangedDebounced <;>
      simp [fireDocumentDirtyStateChanged, hds]
  · by_cases hdl : 0 < s.dirtyIdleTriggerDelay
    · cases hdb : s.dirtyIdleTriggeredDebounced <;>
        simp [fireDocumentDirtyStateChanged, hdl, hdb]
    · simp [fireDocumentDirtyStateChanged, hdl]

theorem fire_documentMap (id : Nat) (dirty : Bool) (now : Nat) (s : TrackerState) :
    (fireDocumentDirtyStateChanged id dirty now s).1.documentMap = s.documentMap := by
  cases dirty
  · cases hds : s.dirtyStateChangedDebounced <;>
      simp [fireDocumentDirtyStateChanged, hds]
  · by_cases hdl : 0 < s.dirtyIdleTriggerDelay
    · cases hdb : s.dirtyIdleTriggeredDebounced <;>
        simp [fireDocumentDirtyStateChanged, hdl, hdb]
    · simp [fireDocumentDirtyStateChanged, hdl]

theorem fire_no_dispatch (id : Nat) (dirty : Bool) (now : Nat) (s : TrackerState) :
    (fireDocumentDirtyStateChanged id dirty now s).2.any TrackerAction.isDirtyDispatch
      = false := by
  cases dirty
  · cases hds : s.dirtyStateChangedDebounced <;>
      simp [fireDocumentDirtyStateChanged, hds, TrackerAction.isDirtyDispatch]
  · by_cases hdl : 0 < s.dirtyIdleTriggerDelay
    · cases hdb : s.dirtyIdleTriggeredDebounced <;>
        simp [fireDocumentDirtyStateChanged, hdl, hdb, TrackerAction.isDirtyDispatch]
    · simp [fireDocumentDirtyStateChanged, hdl, TrackerAction.isDirtyDispatch]

theorem fire_idle_after_call (id : Nat) (now : Nat) (s : TrackerState) (db : Debounce)
    (h : s.dirtyIdleTriggeredDebounced = some (Debounce.call db now)) :
    (fireDocumentDirtyStateChanged id true now s).1.dirtyIdleTriggeredDebounced
      = some (Debounce.call db now) := by
  by_cases hdl : 0 < s.dirtyIdleTriggerDelay <;>
    simp [fireDocumentDirtyStateChanged, hdl, h, Debounce.call]

theorem processChange_guard_stop (env : Env) (now : Nat) (d : TextDocument) (id : Nat)
    (doc : TrackedDocument) (s : TrackerState)
    (hforce : doc.forceDirtyStateChangeOnNextDocumentChange = false)
    (heq : doc.dirty = d.isDirty) :
    (processChange env now d id doc s).1.heap
      = alSet s.heap id (TrackedDocument.reset ResetReason.document doc)
    ∧ (processChange env now d id doc s).1.documentMap = s.documentMap
    ∧ (processChange env now d id doc s).2.any TrackerAction.isDirtyDispatch = false := by
  cases hdb : s.dirtyIdleTriggeredDebounced with
  | none =>
    simp [processChange, TrackedDocument.reset, hforce, heq, hdb,
      TrackerAction.isDirtyDispatch]
  | some db =>
    cases hdi : d.isDirty <;>
      simp [processChange, TrackedDocument.reset, hforce, heq, hdb, hdi,
        TrackerAction.isDirtyDispatch]

theorem processChange_update_fields (env : Env) (now : Nat) (d : TextDocument) (id : Nat)
    (doc : TrackedDocument) (s : TrackerState)
    (hne : (!doc.forceDirtyStateChangeOnNextDocumentChange && (doc.dirty == d.isDirty))
      = false) :
    ((alGet (processChange env now d id doc s).1.heap id).map TrackedDocument.dirty
        = some d.isDirty)
    ∧ ((alGet (processChange env now d id doc s).1.heap id).map
        TrackedDocument.forceDirtyStateChangeOnNextDocumentChange = some false)
    ∧ (processChange env now d id doc s).1.documentMap = s.documentMap
    ∧ (processChange env now d id doc s).2.any TrackerAction.isDirtyDispatch
        = isActiveDocument env d := by
  simp only [processChange, TrackedDocument.reset]
  rw [hne]
  cases hdb : s.dirtyIdleTriggeredDebounced with
  | none =>
    cases hed : env.activeTextEditor with
    | none =>
      simp [hdb, hed, alGet_set_self, isActiveDocument, TrackerAction.isDirtyDispatch]
    | some editor =>
      by_cases heid : editor.document.id = d.id <;>
        simp [hdb, hed, heid, alGet_set_self, isActiveDocument,
          TrackerAction.isDirtyDispatch, fire_heap, fire_documentMap, fire_no_dispatch]
  | some db =>
    cases hdi : d.isDirty with
    | false =>
      cases hed : env.activeTextEditor with
      | none =>
        simp [hdb, hdi, hed, alGet_set_self, isActiveDocument,
          TrackerAction.isDirtyDispatch]
      | some editor =>
        by_cases heid : editor.document.id = d.id <;>
          simp [hdb, hdi, hed, heid, alGet_set_self, isActiveDocument,
            TrackerAction.isDirtyDispatch, fire_heap, fire_documentMap, fire_no_dispatch]
    | true =>
      cases hed : env.activeTextEditor with
      | none =>
        simp [hdb, hdi, hed, alGet_set_self, isActiveDocument,
          TrackerAction.isDirtyDispatch]
      | some editor =>
        by_cases heid : editor.document.id = d.id <;>
          simp [hdb, hdi, hed, heid, alGet_set_self, isActiveDocument,
            TrackerAction.isDirtyDispatch, fire_heap, fire_documentMap, fire_no_dispatch]

theorem processChange_documentMap_eq (env : Env) (now : Nat) (d : TextDocument) (id : Nat)
    (doc : TrackedDocument) (s : TrackerState) :
    (processChange env now d id doc s).1.documentMap = s.documentMap := by
  simp only [processChange, TrackedDocument.reset]
  cases hg : (!doc.forceDirtyStateChangeOnNextDocumentChange && (doc.dirty == d.isDirty)) <;>
    cases hdb : s.dirtyIdleTriggeredDebounced <;>
      cases hdi : d.isDirty <;>
        (cases hed : env.activeTextEditor with
          | none => simp [fire_documentMap]
          | some editor =>
            by_cases heid : editor.document.id = d.id <;>
              simp [heid, fire_documentMap])

theorem processChange_heap_at_id (env : Env) (now : Nat) (d : TextDocument) (id : Nat)
    (doc : TrackedDocument) (s : TrackerState) :
    (alGet (processChange env now d id doc s).1.heap id).isSome = true := by
  simp only [processChange, TrackedDocument.reset]
  cases hg : (!doc.forceDirtyStateChangeOnNextDocumentChange && (doc.dirty == d.isDirty)) <;>
    cases hdb : s.dirtyIdleTriggeredDebounced <;>
      cases hdi : d.isDirty <;>
        (cases hed : env.activeTextEditor with
          | none => simp [fire_heap, alGet_set_self]
          | some editor =>
            by_cases heid : editor.document.id = d.id <;>
              simp [heid, fire_heap, alGet_set_self])

theorem processChange_idle_dirty (env : Env) (now : Nat) (d : TextDocument) (id : Nat)
    (doc : TrackedDocument) (s : TrackerState) (db : Debounce)
    (hidle : s.dirtyIdleTriggeredDebounced = some db) (hd : d.isDirty = true) :
    (processChange env now d id doc s).1.dirtyIdleTriggeredDebounced
      = some (Debounce.call db now) := by
  simp only [processChange, TrackedDocument.reset]
  cases hg : (!doc.forceDirtyStateChangeOnNextDocumentChange && (doc.dirty == d.isDirty)) with
  | true => simp [hidle, hd]
  | false =>
    cases hed : env.activeTextEditor with
    | none => simp [hidle, hd, hed]
    | some editor =>
      by_cases heid : editor.document.id = d.id
      · by_cases hdl : 0 < s.dirtyIdleTriggerDelay <;>
          simp [hidle, hd, hed, heid, hdl, fireDocumentDirtyStateChanged, Debounce.call]
      · simp [hidle, hd, hed, heid]

theorem processChange_idle_clean (env : Env) (now : Nat) (d : TextDocument) (id : Nat)
    (doc : TrackedDocument) (s : TrackerState) (db : Debounce)
    (hidle : s.dirtyIdleTriggeredDebounced = some db) (hd : d.isDirty = false) :
    (processChange env now d id doc s).1.dirtyIdleTriggeredDebounced
      = some (Debounce.cancel db) := by
  simp only [processChange, TrackedDocument.reset]
  cases hg : (!doc.forceDirtyStateChangeOnNextDocumentChange && (doc.dirty == d.isDirty)) with
  | true => simp [hidle, hd]
  | false =>
    cases hed : env.activeTextEditor with
    | none => simp [hidle, hd, hed]
    | some editor =>
      by_cases heid : editor.document.id = d.id
      · cases hds : s.dirtyStateChangedDebounced <;>
          simp [hidle, hd, hed, heid, hds, fireDocumentDirtyStateChanged]
      · simp [hidle, hd, hed, heid]

theorem processChange_dispatch_mem (env : Env) (now : Nat) (d : TextDocument) (id : Nat)
    (doc : TrackedDocument) (s : TrackerState) (editor : TextEditor)
    (hne : (!doc.forceDirtyStateChangeOnNextDocumentChange && (doc.dirty == d.isDirty))
      = false)
    (hed : env.activeTextEditor = some editor)
    (heid : editor.document.id = d.id) :
    TrackerAction.dispatchDirtyStateChanged editor.document.id id d.isDirty
      ∈ (processChange env now d id doc s).2 := by
  simp only [processChange, TrackedDocument.reset]
  rw [hne]
  cases hdb : s.dirtyIdleTriggeredDebounced <;>
    cases hdi : d.isDirty <;>
      simp [hed, heid]

/-- C3: on a file-scheme change event for a tracked document, if no force
flag is pending and the buffer's dirty flag equals the stored one, no
dirty-state-changed event is dispatched and the stored dirty flag is kept;
otherwise the force flag is cleared, the stored dirty flag becomes the
buffer's value, and the event is dispatched exactly when the changed document
is the active editor's document. -/
theorem change_guard_behavior
    (env : Env) (now : Nat) (d : TextDocument) (s : TrackerState) (id : Nat)
    (doc : TrackedDocument)
    (hscheme : d.uri.scheme = Scheme.file)
    (hmap : alGet s.documentMap (MapKey.handle d.id) = some id)
    (hheap : alGet s.heap id = some doc) :
    (doc.forceDirtyStateChangeOnNextDocumentChange = false → doc.dirty = d.isDirty →
      ((onTextDocumentChanged env now d s).2.any TrackerAction.isDirtyDispatch = false
        ∧ (alGet (onTextDocumentChanged env now d s).1.heap id).map TrackedDocument.dirty
            = some doc.dirty))
    ∧ ((doc.forceDirtyStateChangeOnNextDocumentChange = true ∨ ¬doc.dirty = d.isDirty) →
      ((alGet (onTextDocumentChanged env now d s).1.heap id).map
          TrackedDocument.forceDirtyStateChangeOnNextDocumentChange = some false
        ∧ (alGet (onTextDocumentChanged env now d s).1.heap id).map TrackedDocument.dirty
            = some d.isDirty
        ∧ (onTextDocumentChanged env now d s).2.any TrackerAction.isDirtyDispatch
            = isActiveDocument env d)) := by
  rw [onTextDocumentChanged_tracked env now d s id doc hscheme hmap hheap]
  constructor
  · intro hforce heq
    have h := processChange_guard_stop env now d id doc s hforce heq
    refine ⟨h.2.2, ?_⟩
    rw [h.1, alGet_set_self]
    simp [TrackedDocument.reset]
  · intro hor
    have hne : (!doc.forceDirtyStateChangeOnNextDocumentChange && (doc.dirty == d.isDirty))
        = false := by
      rcases hor with h | h
      · simp [h]
      · cases hd1 : doc.dirty <;> cases hd2 : d.isDirty <;> simp_all
    have h := processChange_update_fields env now d id doc s hne
    exact ⟨h.2.1, h.1, h.2.2.2⟩

theorem change_guard_behavior_witness :
    ((alGet (onTextDocumentChanged
          { activeTextEditor := some { document := sampleDirtyDocument } } 0
          sampleDirtyDocument (addCore sampleDocument emptyTrackerState).2).1.heap 0).map
        TrackedDocument.dirty = some true)
    ∧ (onTextDocumentChanged
          { activeTextEditor := some { document := sampleDirtyDocument } } 0
          sampleDirtyDocument (addCore sampleDocument emptyTrackerState).2).2.any
        TrackerAction.isDirtyDispatch = true := by
  have h := change_guard_behavior
    { activeTextEditor := some { document := sampleDirtyDocument } } 0
    sampleDirtyDocument (addCore sampleDocument emptyTrackerState).2 0
    (newTrackedDocument sampleDocument (toStateKey (FileNameOrUri.uri sampleUri)) false)
    (by decide) (by decide) (by decide)
  have h2 := h.2 (Or.inr (by decide))
  exact ⟨h2.2.1, h2.2.2⟩

/-- C4: in the change handler the idle-timer block runs before the
dirty-unchanged guard: with an existing idle debounce, a dirty edit restarts
the idle countdown from this edit (even a no-op edit on an already-dirty
document, which emits no dirty-state-changed event) and a clean edit cancels
the pending invocation; the debounce only fires when the configured delay
elapses, and a second edit moves the only possible firing time to the delay
measured from the last edit. -/
theorem idle_block_precedes_guard
    (env : Env) (now now2 : Nat) (d : TextDocument) (s : TrackerState) (id : Nat)
    (doc : TrackedDocument) (db : Debounce)
    (hscheme : d.uri.scheme = Scheme.file)
    (hmap : alGet s.documentMap (MapKey.handle d.id) = some id)
    (hheap : alGet s.heap id = some doc)
    (hidle : s.dirtyIdleTriggeredDebounced = some db) :
    (d.isDirty = true →
      (onTextDocumentChanged env now d s).1.dirtyIdleTriggeredDebounced
        = some (Debounce.call db now)
      ∧ (∀ t, Debounce.fires (Debounce.call db now) t = true → t = now + db.delay)
      ∧ (doc.forceDirtyStateChangeOnNextDocumentChange = false → doc.dirty = true →
          (onTextDocumentChanged env now d s).2.any TrackerAction.isDirtyDispatch = false))
    ∧ (d.isDirty = false →
      (onTextDocumentChanged env now d s).1.dirtyIdleTriggeredDebounced
        = some (Debounce.cancel db)
      ∧ ∀ t, Debounce.fires (Debounce.cancel db) t = false)
    ∧ (d.isDirty = true →
      (onTextDocumentChanged env now2 d
          (onTextDocumentChanged env now d s).1).1.dirtyIdleTriggeredDebounced
        = some (Debounce.call db now2)
      ∧ ∀ t, t < now2 + db.delay → Debounce.fires (Debounce.call db now2) t = false) := by
  have htr := onTextDocumentChanged_tracked env now d s id doc hscheme hmap hheap
  refine ⟨?_, ?_, ?_⟩
  · intro hd
    refine ⟨?_, ?_, ?_⟩
    · rw [htr]
      exact processChange_idle_dirty env now d id doc s db hidle hd
    · intro t ht
      simp [Debounce.fires, Debounce.call] at ht
      omega
    · intro hforce hdd
      rw [htr]
      exact (processChange_guard_stop env now d id doc s hforce (by rw [hdd, hd])).2.2
  · intro hd
    refine ⟨?_, ?_⟩
    · rw [htr]
      exact processChange_idle_clean env now d id doc s db hidle hd
    · intro t
      simp [Debounce.fires, Debounce.cancel]
  · intro hd
    have hm1 : alGet (onTextDocumentChanged env now d s).1.documentMap (MapKey.handle d.id)
        = some id := by
      rw [htr, processChange_documentMap_eq]
      exact hmap
    have hh1 : (alGet (onTextDocumentChanged env now d s).1.heap id).isSome = true := by
      rw [htr]
      exact processChange_heap_at_id env now d id doc s
    obtain ⟨doc1, hh1⟩ := Option.isSome_iff_exists.mp hh1
    have hidle1 : (onTextDocumentChanged env now d s).1.dirtyIdleTriggeredDebounced
        = some (Debounce.call db now) := by
      rw [htr]
      exact processChange_idle_dirty env now d id doc s db hidle hd
    have htr2 := onTextDocumentChanged_tracked env now2 d
      (onTextDocumentChanged env now d s).1 id doc1 hscheme hm1 hh1
    refine ⟨?_, ?_⟩
    · rw [htr2]
      have h2 := processChange_idle_dirty env now2 d id doc1
        (onTextDocumentChanged env now d s).1 (Debounce.call db now) hidle1 hd
      simpa [Debounce.call] using h2
    · intro t ht
      simp [Debounce.fires, Debounce.call]
      omega

theorem idle_block_precedes_guard_witness :
    (onTextDocumentChanged { activeTextEditor := none } 7 sampleDirtyDocument
        sampleTrackedIdleState).1.dirtyIdleTriggeredDebounced
      = some { delay := 1000, pending := some 1007 } := by
  have h := idle_block_precedes_guard { activeTextEditor := none } 7 8 sampleDirtyDocument
    sampleTrackedIdleState 0
    (newTrackedDocument sampleDocument (toStateKey (FileNameOrUri.uri sampleUri)) false)
    { delay := 1000, pending := none }
    (by decide) (by decide) (by decide) (by decide)
  exact (h.1 rfl).1

/-- C9: every Tracked Document created by `addCore` starts with its stored
dirty flag `false` regardless of the buffer's actual dirty flag, so the first
change event on a genuinely dirty untracked buffer fails the dirty-unchanged
guard and, when the document is the active editor's, dispatches a
dirty-state-changed event. -/
theorem addCore_dirty_false_first_change_fires
    (d : TextDocument) (s : TrackerState) (env : Env) (now : Nat)
    (hscheme : d.uri.scheme = Scheme.file)
    (hnone : alGet s.documentMap (MapKey.handle d.id) = none)
    (hdirty : d.isDirty = true)
    (hactive : env.activeTextEditor = some { document := d }) :
    ((alGet (addCore d s).2.heap (addCore d s).1).map TrackedDocument.dirty = some false)
    ∧ TrackerAction.dispatchDirtyStateChanged d.id s.nextId true
        ∈ (onTextDocumentChanged env now d s).2 := by
  constructor
  · show (alGet (alSet s.heap s.nextId
        (newTrackedDocument d (toStateKey (FileNameOrUri.uri d.uri)) false)) s.nextId).map
      TrackedDocument.dirty = some false
    rw [alGet_set_self]
    rfl
  · have huntracked : onTextDocumentChanged env now d s
        = processChange env now d s.nextId
            (newTrackedDocument d (toStateKey (FileNameOrUri.uri d.uri)) false)
            (addCore d s).2 := by
      simp [onTextDocumentChanged, hscheme, hnone, addCore]
    rw [huntracked]
    have hne : (!(newTrackedDocument d (toStateKey (FileNameOrUri.uri d.uri))
          false).forceDirtyStateChangeOnNextDocumentChange
        && ((newTrackedDocument d (toStateKey (FileNameOrUri.uri d.uri)) false).dirty
            == d.isDirty)) = false := by
      simp [newTrackedDocument, hdirty]
    have h := processChange_dispatch_mem env now d s.nextId
      (newTrackedDocument d (toStateKey (FileNameOrUri.uri d.uri)) false)
      (addCore d s).2 { document := d } hne hactive rfl
    rw [hdirty] at h
    exact h

theorem addCore_dirty_false_first_change_fires_witness :
    ((alGet (addCore sampleDirtyDocument emptyTrackerState).2.heap
        (addCore sampleDirtyDocument emptyTrackerState).1).map TrackedDocument.dirty
      = some false)
    ∧ TrackerAction.dispatchDirtyStateChanged 0 0 true
        ∈ (onTextDocumentChanged
            { activeTextEditor := some { document := sampleDirtyDocument } } 0
            sampleDirtyDocument emptyTrackerState).2 := by
  exact addCore_dirty_false_first_change_fires sampleDirtyDocument emptyTrackerState
    { activeTextEditor := some { document := sampleDirtyDocument } } 0
    (by decide) (by decide) (by decide) (by decide)

/-- C6: on a save event, an already-tracked document gets its cached state
updated with the force-blame-recompute flag and the handler stops without
creating anything — independent of the buffer's dirty flag, which the handler
never consults; an untracked document gets a Tracked Document exactly when it
is the active editor's document, and otherwise nothing happens. -/
theorem saved_update_or_conditional_add (env : Env) (d : TextDocument) (s : TrackerState) :
    (∀ id doc, alGet s.documentMap (MapKey.handle d.id) = some id →
      alGet s.heap id = some doc →
      onTextDocumentSaved env d s
        = { s with heap := alSet s.heap id (TrackedDocument.update doc true) }
      ∧ (TrackedDocument.update doc true).forceBlameChange = true
      ∧ (TrackedDocument.update doc true).cacheValid = false
      ∧ (TrackedDocument.update doc true).dirty = doc.dirty)
    ∧ (alGet s.documentMap (MapKey.handle d.id) = none → isActiveDocument env d = true →
      onTextDocumentSaved env d s = (addCore d s).2)
    ∧ (alGet s.documentMap (MapKey.handle d.id) = none → isActiveDocument env d = false →
      onTextDocumentSaved env d s = s) := by
  refine ⟨?_, ?_, ?_⟩
  · intro id doc h1 h2
    refine ⟨?_, rfl, rfl, rfl⟩
    simp [onTextDocumentSaved, h1, h2]
  · intro h1 h2
    simp [onTextDocumentSaved, h1, h2]
  · intro h1 h2
    simp [onTextDocumentSaved, h1, h2]

theorem saved_update_or_conditional_add_witness :
    onTextDocumentSaved { activeTextEditor := none } sampleDocument
        (addCore sampleDocument emptyTrackerState).2
      = { (addCore sampleDocument emptyTrackerState).2 with
          heap := alSet (addCore sampleDocument emptyTrackerState).2.heap 0
            (TrackedDocument.update
              (newTrackedDocument sampleDocument
                (toStateKey (FileNameOrUri.uri sampleUri)) false) true) }
    ∧ onTextDocumentSaved { activeTextEditor := none } sampleDirtyDocument emptyTrackerState
      = emptyTrackerState := by
  have h := saved_update_or_conditional_add { activeTextEditor := none } sampleDocument
    (addCore sampleDocument emptyTrackerState).2
  have h2 := saved_update_or_conditional_add { activeTextEditor := none }
    sampleDirtyDocument emptyTrackerState
  exact ⟨(h.1 0 (newTrackedDocument sampleDocument
      (toStateKey (FileNameOrUri.uri sampleUri)) false) (by decide) (by decide)).1,
    h2.2.2 (by decide) (by decide)⟩

/-- C7: a non-initializing configuration change to the blame
ignore-whitespace or caching-enabled setting resets, with reason `config`,
every tracked document reachable from the cache, leaving the stored dirty
flag and the other non-cache fields unchanged; events changing neither
setting (or the initializing event) leave every document untouched. -/
theorem config_reset_documents (e : ConfigurationChangeEvent) (s : TrackerState) :
    (e.initializing = false →
      (e.changedBlameIgnoreWhitespace = true ∨ e.changedAdvancedCachingEnabled = true) →
      ∀ id doc, alGet s.heap id = some doc →
        s.documentMap.any (fun q => q.2 == id) = true →
        alGet (onConfigurationChanged e s).heap id
          = some (TrackedDocument.reset ResetReason.config doc))
    ∧ (∀ doc, (TrackedDocument.reset ResetReason.config doc).dirty = doc.dirty
        ∧ (TrackedDocument.reset ResetReason.config doc).isDirtyIdle = doc.isDirtyIdle
        ∧ (TrackedDocument.reset ResetReason.config
            doc).forceDirtyStateChangeOnNextDocumentChange
          = doc.forceDirtyStateChangeOnNextDocumentChange
        ∧ (TrackedDocument.reset ResetReason.config doc).key = doc.key
        ∧ (TrackedDocument.reset ResetReason.config doc).lastResetReason
          = some ResetReason.config
        ∧ (TrackedDocument.reset ResetReason.config doc).cacheValid = false)
    ∧ (e.changedBlameIgnoreWhitespace = false → e.changedAdvancedCachingEnabled = false →
        (onConfigurationChanged e s).heap = s.heap)
    ∧ (e.initializing = true → (onConfigurationChanged e s).heap = s.heap) := by
  refine ⟨?_, ?_, ?_, ?_⟩
  · intro hinit hch id doc hget href
    have hc : (!e.initializing
        && (e.changedBlameIgnoreWhitespace || e.changedAdvancedCachingEnabled)) = true := by
      rcases hch with h | h <;> simp [hinit, h]
    have hheap : (onConfigurationChanged e s).heap
        = resetMappedDocuments s.documentMap s.heap := by
      simp only [onConfigurationChanged, hc, if_true]
      split <;> rfl
    rw [hheap, alGet_resetMapped, hget]
    simp [href]
  · intro doc
    exact ⟨rfl, rfl, rfl, rfl, rfl, rfl⟩
  · intro h1 h2
    have hc : (!e.initializing
        && (e.changedBlameIgnoreWhitespace || e.changedAdvancedCachingEnabled)) = false := by
      simp [h1, h2]
    simp only [onConfigurationChanged, hc, Bool.false_eq_true, if_false]
    split <;> rfl
  · intro h1
    have hc : (!e.initializing
        && (e.changedBlameIgnoreWhitespace || e.changedAdvancedCachingEnabled)) = false := by
      simp [h1]
    simp only [onConfigurationChanged, hc, Bool.false_eq_true, if_false]
    split <;> rfl

theorem config_reset_documents_witness :
    alGet (onConfigurationChanged sampleConfigWsEvent
        (addCore sampleDocument emptyTrackerState).2).heap 0
      = some (TrackedDocument.reset ResetReason.config
          (newTrackedDocument sampleDocument
            (toStateKey (FileNameOrUri.uri sampleUri)) false))
    ∧ (TrackedDocument.reset ResetReason.config
        (newTrackedDocument sampleDocument
          (toStateKey (FileNameOrUri.uri sampleUri)) false)).dirty
      = (newTrackedDocument sampleDocument
          (toStateKey (FileNameOrUri.uri sampleUri)) false).dirty := by
  have h := config_reset_documents sampleConfigWsEvent
    (addCore sampleDocument emptyTrackerState).2
  exact ⟨h.1 rfl (Or.inl rfl) 0
      (newTrackedDocument sampleDocument (toStateKey (FileNameOrUri.uri sampleUri)) false)
      (by decide) (by decide),
    (h.2.1 (newTrackedDocument sampleDocument
      (toStateKey (FileNameOrUri.uri sampleUri)) false)).1⟩

/-- C10: `ShowLineBlameCommand.execute` returns `undefined` without acting
when the editor argument is `undefined`, and otherwise resolves the
annotation type and shows annotations inside a try/catch that converts any
exception into a log entry plus an error message — it never propagates an
exception to its caller. -/
theorem showLineBlameExecute_safe {L ε α : Type} (editor : Option TextEditor)
    (argsType : Option L) (cfg : L) (f : TextEditor → L → Except ε α) :
    (showLineBlameExecute none argsType cfg f
      = (Except.ok (none : Option (ExecOutcome α)), ([] : List CmdAction)))
    ∧ (∃ v, (showLineBlameExecute editor argsType cfg f).1 = Except.ok v)
    ∧ (∀ ed a, editor = some ed →
        f ed (resolveAnnotationType argsType cfg) = Except.ok a →
        showLineBlameExecute editor argsType cfg f
          = (Except.ok (some (ExecOutcome.annotations a)), []))
    ∧ (∀ ed ex, editor = some ed →
        f ed (resolveAnnotationType argsType cfg) = Except.error ex →
        showLineBlameExecute editor argsType cfg f
          = (Except.ok (some ExecOutcome.errorMessageShown),
             [CmdAction.loggedError, CmdAction.showedErrorMessage])) := by
  refine ⟨rfl, ?_, ?_, ?_⟩
  · cases editor with
    | none => exact ⟨none, rfl⟩
    | some ed =>
      cases hf : f ed (resolveAnnotationType argsType cfg) with
      | ok a =>
        exact ⟨some (ExecOutcome.annotations a), by simp [showLineBlameExecute, hf]⟩
      | error ex =>
        exact ⟨some ExecOutcome.errorMessageShown, by simp [showLineBlameExecute, hf]⟩
  · intro ed a hed hf
    subst hed
    simp [showLineBlameExecute, hf]
  · intro ed ex hed hf
    subst hed
    simp [showLineBlameExecute, hf]

theorem showLineBlameExecute_safe_witness :
    @showLineBlameExecute Nat Nat Nat (some { document := sampleDocument }) none 0
        (fun _ _ => Except.error 7)
      = (Except.ok (some ExecOutcome.errorMessageShown),
         [CmdAction.loggedError, CmdAction.showedErrorMessage]) :=
  (showLineBlameExecute_safe (some { document := sampleDocument }) none 0
    (fun _ _ => Except.error 7)).2.2.2 { document := sampleDocument } 7 rfl rfl
